import Mathlib

/-!
Verification of the playback-control core (`src/player/playloop.c`) of the
mpv-derived media player.  The data model and operations below are a shallow
embedding of that C file: C doubles are modelled as rationals (`ℚ`) with the
`MP_NOPTS_VALUE` sentinel kept as an ordinary value, C ints as `Int`, booleans
as `Bool`, pointers that are only tested for NULL as `Bool` presence flags or
`Option`, and external collaborators (demuxer, audio/video outputs, input) as
explicit inputs and emitted effect lists.
-/

namespace Playloop

/-- `MP_NOPTS_VALUE` sentinel (common/common.h, not under src/): a huge
negative double used to mean "timestamp unknown".  Modelled as the exact
rational value of the C constant. -/
def MP_NOPTS_VALUE : ℚ := -(2 ^ 63)

/-- `MPMAX` from common/common.h, on doubles. -/
def MPMAXq (a b : ℚ) : ℚ := if a > b then a else b

/-- `MPMIN` from common/common.h, on doubles. -/
def MPMINq (a b : ℚ) : ℚ := if a < b then a else b

/-- `MPCLAMP(a, min, max)` from common/common.h, on doubles. -/
def MPCLAMPq (a lo hi : ℚ) : ℚ := if a > hi then hi else if a < lo then lo else a

/-- `enum seek_type` (player/core.h; `MPSEEK_NONE = 0` so that
`(struct seek_params){0}` has type NONE and `if (mpctx->seek.type)` tests
for a pending seek). -/
inductive seek_type where
  | NONE
  | RELATIVE
  | ABSOLUTE
  | FACTOR
  | BACKSTEP
deriving DecidableEq

/-- `enum seek_precision` (player/core.h).  The numeric values are ordered by
exactness: DEFAULT = 0 < KEYFRAME < EXACT < VERY_EXACT, matching the
comparisons `seek.exact >= MPSEEK_EXACT` and `MPMAX(seek->exact, exact)`
in playloop.c. -/
inductive seek_precision where
  | DEFAULT
  | KEYFRAME
  | EXACT
  | VERY_EXACT
deriving DecidableEq

/-- Numeric value of a `seek_precision`, as used by the C comparisons. -/
def seek_precision.val : seek_precision → Nat
  | .DEFAULT => 0
  | .KEYFRAME => 1
  | .EXACT => 2
  | .VERY_EXACT => 3

/-- `MPMAX` applied to two `seek_precision` enum values. -/
def precMAX (a b : seek_precision) : seek_precision :=
  if a.val > b.val then a else b

/-- The seek flag bitset (player/core.h): `MPSEEK_FLAG_DELAY` and
`MPSEEK_FLAG_NOFLUSH` are the only bits, modelled as two booleans. -/
structure SeekFlags where
  delay : Bool
  noflush : Bool
deriving DecidableEq

/-- Bitwise OR of two seek flag sets (`seek->flags |= flags`). -/
def SeekFlags.union (a b : SeekFlags) : SeekFlags :=
  ⟨a.delay || b.delay, a.noflush || b.noflush⟩

/-- The all-clear flag set (`flags = 0`). -/
def noSeekFlags : SeekFlags := ⟨false, false⟩

/-- `struct seek_params` (player/core.h). -/
structure seek_params where
  type : seek_type
  amount : ℚ
  exact : seek_precision
  flags : SeekFlags
deriving DecidableEq

/-- `(struct seek_params){0}`: the empty pending seek. -/
def emptySeekParams : seek_params := ⟨.NONE, 0, .DEFAULT, noSeekFlags⟩

/-- `enum playback_status` (player/core.h).  `NONE` stands for the first
value (`STATUS_SYNCING`); the order NONE < READY < PLAYING < DRAINING < EOF
matches the C comparisons such as `video_status >= STATUS_PLAYING`. -/
inductive mp_status where
  | NONE
  | READY
  | PLAYING
  | DRAINING
  | EOF
deriving DecidableEq

/-- Numeric value of a playback status, for the C `<` / `>=` comparisons. -/
def mp_status.val : mp_status → Nat
  | .NONE => 0
  | .READY => 1
  | .PLAYING => 2
  | .DRAINING => 3
  | .EOF => 4

/-- `enum stop_play_reason` (player/core.h); `KEEP_PLAYING = 0` so that
`if (mpctx->stop_play)` tests for "some stop reason set". -/
inductive stop_play_reason where
  | KEEP_PLAYING
  | AT_END_OF_FILE
  | PT_NEXT_ENTRY
  | PT_CURRENT_ENTRY
  | PT_QUIT
  | PT_ERROR
deriving DecidableEq

/-- Modelled from the spec: the choice values of the `--hr-seek` option
(options/options.c is not under src/).  The spec names the modes
"hr_seek=absolute" and "hr_seek=always"; the C field `opts->hr_seek` is an
int with "no" < 0, "absolute" = 0 and "always" > 0, matching the tests
`opts->hr_seek == 0` and `opts->hr_seek > 0` in playloop.c. -/
inductive HrSeekMode where
  | never
  | absolute
  | always
deriving DecidableEq

/-- Integer value stored in `opts->hr_seek` for each option choice. -/
def HrSeekMode.toInt : HrSeekMode → Int
  | .never => -1
  | .absolute => 0
  | .always => 1

/-- The fields of `struct MPOpts` (options/options.h, not under src/) that
playloop.c reads; each is an independently settable option value. -/
structure MPOpts where
  pause : Bool
  correct_pts : Bool
  hr_seek : HrSeekMode
  hr_seek_demuxer_offset : ℚ
  hr_seek_framedrop : Bool
  ab_loop0 : ℚ
  ab_loop1 : ℚ
  loop_file : Int
  loop_times : Int
  cache_pause : Bool
  cache_pause_wait : ℚ
  cache_pause_initial : Bool
  keep_open : Int
  keep_open_pause : Bool
  stop_screensaver : Bool
  step_sec : ℚ
deriving DecidableEq

/-- One entry of `mpctx->chapters` (`struct demux_chapter`): its start PTS
and the result of the `mp_tags_get_str(metadata, "title")` lookup, modelled
as an optional string. -/
structure demux_chapter where
  pts : ℚ
  title : Option String
deriving DecidableEq

/-- The per-track data mp_seek reads from `struct track`: selection flags and
the value of the external helper `get_track_seek_offset` (player code not
under src/), modelled as a per-track input. -/
structure track_state where
  selected : Bool
  is_external : Bool
  has_demuxer : Bool
  seek_offset : ℚ
deriving DecidableEq

/-- The fields of `struct demuxer` read by playloop.c. -/
structure demuxer_state where
  duration : ℚ
  seekable : Bool
  ts_resets_possible : Bool
  is_network : Bool
deriving DecidableEq

/-- Events emitted through `mp_notify`. -/
inductive MpEvent where
  | PAUSE
  | UNPAUSE
  | SEEK
  | TICK
  | CORE_IDLE
  | CACHE_UPDATE
  | PLAYBACK_RESTART
  | CHAPTER_CHANGE
deriving DecidableEq

/-- Calls made to external collaborators (audio output, video output,
demuxer, dispatch queue) and events emitted, in program order. -/
inductive Effect where
  | notify (e : MpEvent)
  | wakeup
  | aoPause
  | aoResume
  | voSetPaused (p : Bool)
  | screensaver (restore : Bool)
  | clearAudioBuffers
  | trackSeek (pts : ℚ)
  | recorderMark
  | resetSubsystems
  | setTimeout (t : ℚ)
  | prefetch
  | fillAudio
deriving DecidableEq

/-- The demuxer seek flag bitset (`SEEK_FORWARD`, `SEEK_HR`, `SEEK_FACTOR`,
`SEEK_CACHED` from demux/demux.h), modelled as four booleans. -/
structure DemuxFlags where
  forward : Bool
  hr : Bool
  factor : Bool
  cached : Bool
deriving DecidableEq

/-- The player context `struct MPContext`: every field of the C struct that
the playloop.c code under verification reads or writes.  Pointer fields that
are only ever NULL-tested are `Bool` presence flags, except the demuxer whose
fields are read. -/
structure MPContext where
  opts : MPOpts
  demuxer : Option demuxer_state
  tracks : List track_state
  chapters : List demux_chapter
  video_status : mp_status
  audio_status : mp_status
  stop_play : stop_play_reason
  playback_pts : ℚ
  last_seek_pts : ℚ
  last_vo_pts : ℚ
  video_pts : ℚ
  seek : seek_params
  current_seek : seek_params
  hrseek_active : Bool
  hrseek_framedrop : Bool
  hrseek_backstep : Bool
  hrseek_lastframe : Bool
  hrseek_pts : ℚ
  paused : Bool
  paused_for_cache : Bool
  playback_active : Bool
  restart_complete : Bool
  playing : Bool
  in_playloop : Bool
  playback_initialized : Bool
  step_frames : Int
  max_frames : Int
  cache_buffer : Int
  cache_stop_time : ℚ
  next_cache_update : ℚ
  ab_loop_clip : Bool
  audio_allow_second_chance_seek : Bool
  last_chapter_seek : Int
  last_chapter_pts : ℚ
  start_timestamp : ℚ
  time_frame : ℚ
  last_time : Int
  osd_function : Int
  osd_force_update : Bool
  playing_msg_shown : Bool
  ao_present : Bool
  ao_chain_present : Bool
  video_out_present : Bool
  vo_chain_present : Bool
  vo_chain_is_coverart : Bool
  recorder_present : Bool
deriving DecidableEq

/-- `OSD_FFW` symbol value (sub/osd.h, not under src/); only stored, never
inspected, by the code under verification. -/
def OSD_FFW : Int := 1

/-- `get_time_length`: duration of the file, NOPTS (negative sentinel) if
unknown. -/
def get_time_length (m : MPContext) : ℚ :=
  match m.demuxer with
  | some d => if d.duration ≥ 0 then d.duration else MP_NOPTS_VALUE
  | none => MP_NOPTS_VALUE

/-- `get_current_time`: playback_pts if known, else last_seek_pts if known,
else NOPTS; always NOPTS without a demuxer. -/
def get_current_time (m : MPContext) : ℚ :=
  match m.demuxer with
  | some _ =>
    if m.playback_pts ≠ MP_NOPTS_VALUE then m.playback_pts
    else if m.last_seek_pts ≠ MP_NOPTS_VALUE then m.last_seek_pts
    else MP_NOPTS_VALUE
  | none => MP_NOPTS_VALUE

/-- `get_chapter_count`. -/
def get_chapter_count (m : MPContext) : Int := m.chapters.length

/-- `chapter_name`: NULL (`none`) if the index is out of `[0, num_chapters)`,
else the title lookup on the chapter's metadata. -/
def chapter_name (m : MPContext) (chapter : Int) : Option String :=
  if chapter < 0 ∨ chapter ≥ (m.chapters.length : Int) then none
  else (m.chapters.getD chapter.toNat ⟨0, none⟩).title

/-- `chapter_start_time`: 0 for index −1, the chapter's start PTS for a valid
index, NOPTS otherwise. -/
def chapter_start_time (m : MPContext) (chapter : Int) : ℚ :=
  if chapter = -1 then 0
  else if chapter ≥ 0 ∧ chapter < (m.chapters.length : Int) then
    (m.chapters.getD chapter.toNat ⟨0, none⟩).pts
  else MP_NOPTS_VALUE

/-- `get_relative_time`: seconds elapsed since the stored `last_time`
(microseconds), advancing `last_time`.  The current time `mp_time_us()` is an
explicit input. -/
def get_relative_time (m : MPContext) (now_us : Int) : ℚ × MPContext :=
  (((now_us - m.last_time : Int) : ℚ) * (1 / 1000000), {m with last_time := now_us})

/-- `update_screensaver_state`: issue an async screensaver control on the
video output, if one exists. -/
def update_screensaver_state (m : MPContext) : List Effect :=
  if m.video_out_present then
    [Effect.screensaver (!m.playback_active || !m.opts.stop_screensaver)]
  else []

/-- The `active` computation of `update_core_idle_state`: playing, not
paused, restart completed, inside the playloop, and not at a double EOF. -/
def coreActive (m : MPContext) : Bool :=
  let eof : Bool := decide (m.video_status = .EOF ∧ m.audio_status = .EOF)
  !m.paused && m.restart_complete && m.playing && m.in_playloop && !eof

/-- `update_core_idle_state`: recompute `playback_active`; on a change,
update the screensaver and emit `CORE_IDLE`. -/
def update_core_idle_state (m : MPContext) : MPContext × List Effect :=
  let active := coreActive m
  if m.playback_active = active then (m, [])
  else
    let m1 := {m with playback_active := active}
    (m1, update_screensaver_state m1 ++ [Effect.notify .CORE_IDLE])

/-- `set_pause_state`: record the user pause intent, arbitrate with
`paused_for_cache`, propagate a change of the effective pause state to the
audio and video outputs, and emit PAUSE/UNPAUSE when anything changed. -/
def set_pause_state (m : MPContext) (user_pause : Bool) (now_us : Int) :
    MPContext × List Effect :=
  let opts_changed := m.opts.pause ≠ user_pause
  let m1 := {m with opts := {m.opts with pause := user_pause}}
  let internal_paused := user_pause || m1.paused_for_cache
  if internal_paused = m1.paused then
    let r := update_core_idle_state m1
    (r.1, r.2 ++ (if opts_changed then
        [Effect.notify (if user_pause then .PAUSE else .UNPAUSE)] else []))
  else
    let effs1 := (if m1.ao_present ∧ m1.ao_chain_present then
                    [if internal_paused then Effect.aoPause else Effect.aoResume]
                  else [])
                 ++ (if m1.video_out_present then [Effect.voSetPaused internal_paused]
                     else [])
                 ++ [Effect.wakeup]
    let m2 := {m1 with paused := internal_paused, osd_function := 0,
                       osd_force_update := true}
    let m3 := if internal_paused then
                {m2 with step_frames := 0,
                         time_frame := m2.time_frame - (get_relative_time m2 now_us).1,
                         last_time := now_us}
              else (get_relative_time m2 now_us).2
    let r := update_core_idle_state m3
    (r.1, effs1 ++ r.2 ++ [Effect.notify (if user_pause then .PAUSE else .UNPAUSE)])

/-- `update_internal_pause_state`: re-arbitrate after `paused_for_cache`
changed, keeping the user intent. -/
def update_internal_pause_state (m : MPContext) (now_us : Int) :
    MPContext × List Effect :=
  set_pause_state m m.opts.pause now_us

/-- The merge of one seek request into the pending `mpctx->seek` record — the
`switch (type)` of `queue_seek`, as a function of the old record.  RELATIVE
accumulates into RELATIVE/ABSOLUTE/NONE and is dropped on FACTOR (after
OR-merging the flags); ABSOLUTE/FACTOR/BACKSTEP replace the record; NONE
clears it. -/
def queue_seek_merge (s : seek_params) (type : seek_type) (amount : ℚ)
    (exact : seek_precision) (flags : SeekFlags) : seek_params :=
  match type with
  | .RELATIVE =>
    let s1 : seek_params := {s with flags := SeekFlags.union s.flags flags}
    if s1.type = .FACTOR then s1
    else
      let s2 : seek_params := {s1 with amount := s1.amount + amount}
      let s3 : seek_params := {s2 with exact := precMAX s2.exact exact}
      let s4 : seek_params := if s3.type = .NONE then {s3 with exact := exact} else s3
      if s4.type = .ABSOLUTE then s4
      else {s4 with type := .RELATIVE}
  | .ABSOLUTE => ⟨.ABSOLUTE, amount, exact, flags⟩
  | .FACTOR => ⟨.FACTOR, amount, exact, flags⟩
  | .BACKSTEP => ⟨.BACKSTEP, amount, exact, flags⟩
  | .NONE => emptySeekParams

/-- `queue_seek`: merge a seek request into the pending `mpctx->seek` record
(the `mp_wakeup_core` call has no modelled field).  Any call also downgrades
an AT_END_OF_FILE stop reason. -/
def queue_seek (m : MPContext) (type : seek_type) (amount : ℚ)
    (exact : seek_precision) (flags : SeekFlags) : MPContext :=
  let m := if m.stop_play = .AT_END_OF_FILE then
             {m with stop_play := .KEEP_PLAYING} else m
  {m with seek := queue_seek_merge m.seek type amount exact flags}

/-- `reset_playback_state`: clear seek/restart-related playback fields.  The
resets of the filter graph, decoders and the audio/video/subtitle subsystems
(external modules) are the `resetSubsystems` effect; their writes to fields
outside this file are covered by the environment steps of the transition
relation below. -/
def reset_playback_state (m : MPContext) : MPContext × List Effect :=
  let m1 := {m with hrseek_active := false, hrseek_framedrop := false,
                    hrseek_lastframe := false, hrseek_backstep := false,
                    current_seek := emptySeekParams,
                    playback_pts := MP_NOPTS_VALUE,
                    last_seek_pts := MP_NOPTS_VALUE,
                    step_frames := 0, ab_loop_clip := true,
                    restart_complete := false}
  let r := update_core_idle_state m1
  (r.1, Effect.resetSubsystems :: r.2)

/-- External inputs consumed by one run of `mp_seek`: the current wall time
`mp_time_sec()` and whether the demuxer accepts the seek (`demux_seek`'s
return value). -/
structure SeekEnv where
  now : ℚ
  demux_ok : Bool
deriving DecidableEq

/-- The "current position" used by `mp_seek`: `get_current_time`, with the
NOPTS sentinel replaced by 0 (after the RELATIVE-with-unknown-time guard). -/
def mp_seek_current_time (m : MPContext) : ℚ :=
  let ct := get_current_time m
  if ct = MP_NOPTS_VALUE then 0 else ct

/-- The seek target `seek_pts` computed by the `switch (seek.type)` in
`mp_seek`: the amount for ABSOLUTE, the current time for BACKSTEP, current
time + amount for RELATIVE, amount × duration for FACTOR when the duration
is known, NOPTS otherwise. -/
def mp_seek_pts (m : MPContext) (k : seek_params) : ℚ :=
  match k.type with
  | .ABSOLUTE => k.amount
  | .BACKSTEP => mp_seek_current_time m
  | .RELATIVE => mp_seek_current_time m + k.amount
  | .FACTOR =>
    if get_time_length m ≥ 0 then k.amount * get_time_length m else MP_NOPTS_VALUE
  | .NONE => MP_NOPTS_VALUE

/-- The result of one `mp_seek` run: the new context, the `demux_seek` call
issued on the main demuxer (none if a no-op guard returned early), and all
effects in program order. -/
structure MpSeekRes where
  st : MPContext
  demux_call : Option (ℚ × DemuxFlags)
  effects : List Effect
deriving DecidableEq

/-- The committed part of `mp_seek`, run after a successful `demux_seek`:
reset the playback state, then record the seek target and the hr-seek
sub-state (`hr_framedrop` is the precomputed
`!hr_seek_very_exact && opts->hr_seek_framedrop`, `fwd_final` the final
FORWARD demuxer flag). -/
def mp_seek_commit (m1 : MPContext) (k : seek_params) (seek_pts : ℚ)
    (hr_seek hr_framedrop fwd_final : Bool) (env : SeekEnv) : MPContext :=
  let rr := reset_playback_state m1
  let m3 := {rr.1 with last_seek_pts := seek_pts}
  let m4 : MPContext := if hr_seek then
              {m3 with hrseek_active := true,
                       hrseek_framedrop := hr_framedrop,
                       hrseek_backstep := decide (k.type = .BACKSTEP),
                       hrseek_pts := seek_pts}
            else m3
  let m5 : MPContext := if m4.stop_play = .AT_END_OF_FILE then
              {m4 with stop_play := .KEEP_PLAYING} else m4
  {m5 with start_timestamp := env.now,
           audio_allow_second_chance_seek := !hr_seek && !fwd_final,
           ab_loop_clip := decide (seek_pts < m5.opts.ab_loop1),
           current_seek := k}

/-- The hr-seek decision of `mp_seek` (line-for-line the C condition, with
the `opts->hr_seek` option choice mapped through its integer value). -/
def mp_seek_hr_decision (m : MPContext) (k : seek_params) : Prop :=
  m.opts.correct_pts = true ∧ k.exact ≠ .KEYFRAME ∧
  ((m.opts.hr_seek.toInt = 0 ∧ k.type = .ABSOLUTE) ∨
   m.opts.hr_seek.toInt > 0 ∨ k.exact.val ≥ seek_precision.EXACT.val) ∧
  mp_seek_pts m k ≠ MP_NOPTS_VALUE

instance (m : MPContext) (k : seek_params) : Decidable (mp_seek_hr_decision m k) :=
  inferInstanceAs (Decidable
    (m.opts.correct_pts = true ∧ k.exact ≠ .KEYFRAME ∧
     ((m.opts.hr_seek.toInt = 0 ∧ k.type = .ABSOLUTE) ∨
      m.opts.hr_seek.toInt > 0 ∨ k.exact.val ≥ seek_precision.EXACT.val) ∧
     mp_seek_pts m k ≠ MP_NOPTS_VALUE))

/-- The demuxer-offset applied to an hr-seek target: the option value,
raised to 0.5 s for a VERY_EXACT seek and further raised to cover per-track
intrinsic offsets of non-external tracks. -/
def mp_seek_hr_offset (m : MPContext) (hr_seek_very_exact : Bool) : ℚ :=
  let o1 := m.opts.hr_seek_demuxer_offset
  let o2 := if hr_seek_very_exact then MPMAXq o1 (1 / 2) else o1
  m.tracks.foldl
    (fun acc t => MPMAXq acc (-(if t.is_external then 0 else t.seek_offset))) o2

/-- `mp_seek`: translate a seek request into a demuxer seek, reset playback
state and commit the hr-seek sub-state. -/
def mp_seek (m : MPContext) (k : seek_params) (env : SeekEnv) : MpSeekRes :=
  match m.demuxer with
  | none => ⟨m, none, []⟩
  | some dm =>
  if k.type = .NONE ∨ k.amount = MP_NOPTS_VALUE then ⟨m, none, []⟩
  else if get_current_time m = MP_NOPTS_VALUE ∧ k.type = .RELATIVE then ⟨m, none, []⟩
  else
    let hr_seek_very_exact : Bool :=
      decide (k.exact = .VERY_EXACT ∨ k.type = .BACKSTEP)
    let seek_pts := mp_seek_pts m k
    let fwd : Bool := decide (k.type = .RELATIVE ∧ k.amount > 0)
    let hr_seek : Bool := decide (mp_seek_hr_decision m k)
    let m1 : MPContext :=
      if k.type = .FACTOR ∨ k.amount < 0 ∨
         (k.type = .ABSOLUTE ∧ k.amount < m.last_chapter_pts)
      then {m with last_chapter_seek := -2} else m
    let factorBranch : Bool := decide
      (k.type = .FACTOR ∧ hr_seek = false ∧
       (dm.ts_resets_possible = true ∨ seek_pts = MP_NOPTS_VALUE))
    let demux_pts0 := if factorBranch then k.amount else seek_pts
    let demux_pts := if hr_seek then
        demux_pts0 - mp_seek_hr_offset m hr_seek_very_exact else demux_pts0
    let fl : DemuxFlags :=
      { forward := fwd && !hr_seek
        hr := hr_seek
        factor := factorBranch
        cached := !dm.seekable }
    if env.demux_ok = false then ⟨m1, some (demux_pts, fl), []⟩
    else
      let extEffs := (m1.tracks.filter
          (fun t => t.selected && t.is_external && t.has_demuxer)).map
        (fun t => Effect.trackSeek
          (if fl.factor then seek_pts else demux_pts + t.seek_offset))
      let effFlush := if k.flags.noflush = false then [Effect.clearAudioBuffers] else []
      let effRec := if (reset_playback_state m1).1.recorder_present then
                      [Effect.recorderMark] else []
      ⟨mp_seek_commit m1 k seek_pts hr_seek
         (!hr_seek_very_exact && m1.opts.hr_seek_framedrop) fl.forward env,
       some (demux_pts, fl),
       extEffs ++ effFlush ++ (reset_playback_state m1).2 ++ effRec ++
         [Effect.wakeup, Effect.notify .SEEK, Effect.notify .TICK]⟩

/-- `execute_queued_seek`: commit the pending seek at the end of a playloop
iteration, unless a DELAYed continuous seek is deferred to let a frame
render first. -/
def execute_queued_seek (m : MPContext) (env : SeekEnv) : MPContext × List Effect :=
  if m.seek.type ≠ .NONE then
    let m1 := if m.hrseek_active ∧ m.seek.exact = .KEYFRAME then
                {m with start_timestamp := -(1000000000 : ℚ)} else m
    if m1.seek.flags.delay = true ∧ m1.video_status.val < mp_status.PLAYING.val ∧
       env.now - m1.start_timestamp < 3 / 10 then
      (m1, [])
    else
      let r := mp_seek m1 m1.seek env
      ({r.st with seek := emptySeekParams}, r.effects)
  else (m, [])

/-- External inputs consumed by one run of `handle_pause_on_low_cache`: the
wall time, the `mp_time_us` clock (for the nested pause-state call), and the
demuxer cache info / reader state (the `demux_stream_control` /
`demux_control` answers, with their C default values when the control call
leaves the struct untouched). -/
structure CacheEnv where
  now : ℚ
  now_us : Int
  c_idle : Bool
  c_size : Int
  s_idle : Bool
  s_underrun : Bool
  s_eof : Bool
  s_ts_duration : ℚ
deriving DecidableEq

/-- The pause-arbitration block of `handle_pause_on_low_cache` (the body of
`if (mpctx->restart_complete && use_pause_on_low_cache)`): leave
paused-for-cache when the reader recovered, enter it on an underrun; the
boolean is the `force_update` contribution. -/
def hploc_arbitrate (m : MPContext) (env : CacheEnv) :
    (MPContext × List Effect) × Bool :=
  if m.paused = true ∧ m.paused_for_cache = true then
    if env.s_underrun = false ∧
       (m.opts.cache_pause = false ∨ env.s_idle = true ∨
        env.s_ts_duration ≥ m.opts.cache_pause_wait) then
      let r := update_internal_pause_state
                 {m with paused_for_cache := false} env.now_us
      ((r.1, r.2 ++ [Effect.setTimeout (1 / 5)]), true)
    else ((m, [Effect.setTimeout (1 / 5)]), false)
  else
    if m.opts.cache_pause = true ∧ env.s_underrun = true then
      let r := update_internal_pause_state
                 {m with paused_for_cache := true} env.now_us
      (({r.1 with cache_stop_time := env.now}, r.2), true)
    else ((m, []), false)

/-- The cache-property scheduling block of `handle_pause_on_low_cache`:
re-arm `next_cache_update` while the cache or reader is busy. -/
def hploc_sched (m1 : MPContext) (env : CacheEnv) (busy : Bool) :
    (MPContext × List Effect) × Bool :=
  if busy = true ∨ m1.next_cache_update > 0 then
    let upd : MPContext × Bool :=
      if m1.next_cache_update ≤ env.now then
        ({m1 with next_cache_update := if busy then env.now + 1 / 4 else 0}, true)
      else (m1, false)
    ((upd.1,
      if upd.1.next_cache_update > 0 then
        [Effect.setTimeout (upd.1.next_cache_update - env.now)] else []),
     upd.2)
  else ((m1, []), false)

/-- The commit of the freshly computed `cache_buffer` percentage (the final
`if (mpctx->cache_buffer != cache_buffer)` block; the verbose log messages
have no modelled field). -/
def hploc_commit (m2 : MPContext) (cb : Int) : MPContext × Bool :=
  if m2.cache_buffer ≠ cb then ({m2 with cache_buffer := cb}, true)
  else (m2, false)

/-- `handle_pause_on_low_cache`: enter or leave paused-for-cache based on the
demuxer reader state, compute the `cache_buffer` percentage (an `int` in C,
so the clamped product is truncated; the value is nonnegative, so truncation
is the floor), schedule cache property updates and emit CACHE_UPDATE. -/
def handle_pause_on_low_cache (m : MPContext) (env : CacheEnv) :
    MPContext × List Effect :=
  match m.demuxer with
  | none => (m, [])
  | some dm =>
    let use_pause_on_low_cache : Bool := decide (env.c_size > 0) || dm.is_network
    let pauseStep : (MPContext × List Effect) × Bool :=
      if m.restart_complete = true ∧ use_pause_on_low_cache = true then
        hploc_arbitrate m env
      else ((m, []), false)
    let m1 := pauseStep.1.1
    let cb : Int :=
      if m.restart_complete = true ∧ use_pause_on_low_cache = true ∧
         m1.paused_for_cache = true then
        ⌊(100 : ℚ) * MPCLAMPq (env.s_ts_duration / m.opts.cache_pause_wait)
            0 (99 / 100)⌋
      else 100
    let busy : Bool := !env.s_idle || !env.c_idle
    let schedStep := hploc_sched m1 env busy
    let m2 := schedStep.1.1
    let commit := hploc_commit m2 cb
    let force_update := pauseStep.2 || schedStep.2 || commit.2
    let effPrefetch := if env.s_eof = true ∧ busy = false then [Effect.prefetch] else []
    let effNotify := if force_update then [Effect.notify .CACHE_UPDATE] else []
    (commit.1,
     pauseStep.1.2 ++ schedStep.1.2 ++ effPrefetch ++ effNotify)

/-- `handle_playback_time`: update `playback_pts` from the video position
while video is playing (and is not cover art), else from the audio position
(`playing_audio_pts`, an external computation passed as `audio_pts`). -/
def handle_playback_time (m : MPContext) (audio_pts : ℚ) : MPContext :=
  if m.vo_chain_present = true ∧ m.vo_chain_is_coverart = false ∧
     m.video_status.val ≥ mp_status.PLAYING.val ∧
     m.video_status.val < mp_status.EOF.val then
    {m with playback_pts := m.video_pts}
  else if m.audio_status.val ≥ mp_status.PLAYING.val ∧
          m.audio_status.val < mp_status.EOF.val then
    {m with playback_pts := audio_pts}
  else m

/-- External inputs consumed by one run of `handle_playback_restart`. -/
structure RestartEnv where
  now : ℚ
  now_us : Int
  demux_ok : Bool
  audio_pts : ℚ
deriving DecidableEq

/-- The initial-buffering clause of `handle_playback_restart`: when
`cache_pause_initial` is set and a stream is exactly READY, restart in
paused-for-cache mode with `cache_buffer = 0`. -/
def hpr_initial_cache (m : MPContext) (env : RestartEnv) :
    MPContext × List Effect :=
  if m.opts.cache_pause_initial = true ∧
     (m.video_status = .READY ∨ m.audio_status = .READY) then
    update_internal_pause_state
      {m with paused_for_cache := true, cache_buffer := 0} env.now_us
  else (m, [])

/-- The video promotion clause of `handle_playback_restart`: READY video
enters PLAYING (with a `get_relative_time` reset). -/
def hpr_video_promote (m1 : MPContext) (env : RestartEnv) :
    MPContext × List Effect :=
  if m1.video_status = .READY then
    ({m1 with video_status := .PLAYING, last_time := env.now_us},
     [Effect.wakeup])
  else (m1, [])

/-- The completion clause of `handle_playback_restart` (the
`if (!mpctx->restart_complete)` block): clear `hrseek_active`, set
`restart_complete`, refresh the playback time, emit PLAYBACK_RESTART, mark
the playing message shown and recompute `ab_loop_clip`. -/
def hpr_finish (m2 : MPContext) (env : RestartEnv) : MPContext × List Effect :=
  if m2.restart_complete = false then
    let m3 := {m2 with hrseek_active := false, restart_complete := true,
                       current_seek := emptySeekParams,
                       audio_allow_second_chance_seek := false}
    let m4 := handle_playback_time m3 env.audio_pts
    let r4 := update_core_idle_state m4
    let m5 := {r4.1 with playing_msg_shown := true,
                         ab_loop_clip :=
                           decide (r4.1.playback_pts < r4.1.opts.ab_loop1)}
    (m5, [Effect.notify .PLAYBACK_RESTART] ++ r4.2 ++ [Effect.wakeup])
  else (m2, [])

/-- `handle_playback_restart`: the audio/video readiness barrier.  When both
are at least READY, optionally force initial buffering, promote READY to
PLAYING, short-circuit into a queued seek instead of starting audio, and on
the first pass set `restart_complete` (clearing `hrseek_active`) and emit
PLAYBACK_RESTART.  The playing-message log output has no modelled field. -/
def handle_playback_restart (m : MPContext) (env : RestartEnv) :
    MPContext × List Effect :=
  if m.audio_status.val < mp_status.READY.val ∨
     m.video_status.val < mp_status.READY.val then (m, [])
  else
    let r1 := hpr_initial_cache m env
    let m1 := r1.1
    let r2 := hpr_video_promote m1 env
    let m2 := r2.1
    if m2.audio_status = .READY ∧ m2.seek.type ≠ .NONE ∧
       m2.video_status = .PLAYING then
      let m3 := handle_playback_time m2 env.audio_pts
      let r3 := execute_queued_seek m3 ⟨env.now, env.demux_ok⟩
      (r3.1, r1.2 ++ r2.2 ++ r3.2)
    else
      let effFill := if m2.audio_status = .READY then [Effect.fillAudio] else []
      let r4 := hpr_finish m2 env
      (r4.1, r1.2 ++ r2.2 ++ effFill ++ r4.2)

/-- Modelled from the spec: `get_ab_loop_start_time` (player code not under
src/) yields the A end point of the A-B loop — the `ab_loop[0]` option value,
NOPTS when unset ("ABSOLUTE seek to the A-endpoint (0 if not set)", where the
0 fallback is explicit in `handle_loop_file` itself). -/
def get_ab_loop_start_time (m : MPContext) : ℚ := m.opts.ab_loop0

/-- `handle_loop_file`: at AT_END_OF_FILE, wrap around for an A-B loop (or,
failing that, for `--loop-file`), clearing the stop reason and queueing an
ABSOLUTE seek.  The returned list logs the `queue_seek` calls made, in order
(`mark_seek` only timestamps OSD state and has no modelled field). -/
def handle_loop_file (m : MPContext) : MPContext × List seek_params :=
  if m.stop_play = .AT_END_OF_FILE ∧
     (m.opts.ab_loop0 ≠ MP_NOPTS_VALUE ∨ m.opts.ab_loop1 ≠ MP_NOPTS_VALUE) then
    let m1 := {m with stop_play := .KEEP_PLAYING}
    let start0 := get_ab_loop_start_time m1
    let start := if start0 = MP_NOPTS_VALUE then 0 else start0
    (queue_seek m1 .ABSOLUTE start .EXACT ⟨false, true⟩,
     [⟨.ABSOLUTE, start, .EXACT, ⟨false, true⟩⟩])
  else if m.opts.loop_file ≠ 0 ∧ m.stop_play = .AT_END_OF_FILE then
    let m1 := {m with stop_play := .KEEP_PLAYING, osd_function := OSD_FFW}
    let m2 := queue_seek m1 .ABSOLUTE 0 .DEFAULT ⟨false, true⟩
    let m3 : MPContext :=
      if m2.opts.loop_file > 0 then
        {m2 with opts := {m2.opts with loop_file := m2.opts.loop_file - 1}}
      else m2
    (m3, [⟨.ABSOLUTE, 0, .DEFAULT, ⟨false, true⟩⟩])
  else (m, [])

/-- External inputs consumed by `handle_keep_open` / `seek_to_last_frame`:
whether the playlist has a next entry, whether the video output holds a
frame, the `get_play_end_pts` result (an option read outside src/), and the
clocks and demuxer answer for the inner seek. -/
structure KeepOpenEnv where
  has_next_entry : Bool
  vo_has_frame : Bool
  play_end_pts : ℚ
  now_us : Int
  seekEnv : SeekEnv
deriving DecidableEq

/-- `seek_to_last_frame`: seek (once) near the end of the file with
VERY_EXACT precision, then pin the resulting hr-seek to "infinity" so the
last decoded frame is retained. -/
def seek_to_last_frame (m : MPContext) (env : KeepOpenEnv) :
    MPContext × List Effect :=
  if m.vo_chain_present = false then (m, [])
  else if m.hrseek_lastframe = true then (m, [])
  else
    let e0 := env.play_end_pts
    let e1 := if e0 = MP_NOPTS_VALUE then get_time_length m else e0
    let r := mp_seek m ⟨.ABSOLUTE, e1, .VERY_EXACT, noSeekFlags⟩ env.seekEnv
    let m2 : MPContext :=
      if r.st.hrseek_active then
        {r.st with hrseek_pts := (10 : ℚ) ^ 99, hrseek_lastframe := true}
      else r.st
    (m2, r.effects)

/-- `handle_keep_open`: at AT_END_OF_FILE with keep-open enabled (and no next
playlist entry unless keep-open is "always"), stay on the file: restore
KEEP_PLAYING, show the last frame, and optionally force the user pause. -/
def handle_keep_open (m : MPContext) (env : KeepOpenEnv) :
    MPContext × List Effect :=
  if m.opts.keep_open ≠ 0 ∧ m.stop_play = .AT_END_OF_FILE ∧
     (m.opts.keep_open = 2 ∨ env.has_next_entry = false) ∧
     m.opts.loop_times = 1 then
    let m1 := {m with stop_play := .KEEP_PLAYING}
    let r2 : MPContext × List Effect :=
      if m1.vo_chain_present = true then
        let r := if env.vo_has_frame = false then seek_to_last_frame m1 env
                 else (m1, [])
        ({r.1 with playback_pts := r.1.last_vo_pts}, r.2)
      else (m1, [])
    if r2.1.opts.keep_open_pause = true then
      let r3 := set_pause_state r2.1 true env.now_us
      (r3.1, r2.2 ++ r3.2)
    else r2
  else (m, [])

/-- `handle_eof`: declare AT_END_OF_FILE when some chain exists, both
statuses are EOF, no stop reason is set, and EOF is not prevented by a
paused display of the final frame (`vo_has_frame` is the video output's
answer). -/
def handle_eof (m : MPContext) (vo_has_frame : Bool) : MPContext :=
  let prevent_eof := m.paused = true ∧ m.video_out_present = true ∧
                     vo_has_frame = true
  if (m.ao_chain_present = true ∨ m.vo_chain_present = true) ∧ ¬prevent_eof ∧
     m.audio_status = .EOF ∧ m.video_status = .EOF ∧
     m.stop_play = .KEEP_PLAYING then
    {m with stop_play := .AT_END_OF_FILE}
  else m

/-- `handle_sstep`: auto-advance stepping (`--sstep`) and frame-step pause
handling at video EOF. -/
def handle_sstep (m : MPContext) (now_us : Int) : MPContext :=
  if m.stop_play ≠ .KEEP_PLAYING ∨ m.restart_complete = false then m
  else
    let m1 := if m.opts.step_sec > 0 ∧ m.paused = false then
                queue_seek {m with osd_function := OSD_FFW} .RELATIVE
                  m.opts.step_sec .DEFAULT noSeekFlags
              else m
    if m1.video_status.val ≥ mp_status.EOF.val then
      let m2 : MPContext :=
        if m1.max_frames ≥ 0 ∧ m1.stop_play = .KEEP_PLAYING then
          {m1 with stop_play := .AT_END_OF_FILE}
        else m1
      if m2.step_frames > 0 ∧ m2.paused = false then
        (set_pause_state m2 true now_us).1
      else m2
    else m1

/-- `add_step_frame`: frame step forward (unpause with a step budget) or
backward (BACKSTEP seek and pause). -/
def add_step_frame (m : MPContext) (dir : Int) (now_us : Int) : MPContext :=
  if m.vo_chain_present = false then m
  else if dir > 0 then
    (set_pause_state {m with step_frames := m.step_frames + 1} false now_us).1
  else if dir < 0 then
    if m.hrseek_active = false then
      (set_pause_state (queue_seek m .BACKSTEP 0 .VERY_EXACT noSeekFlags)
        true now_us).1
    else m
  else m

/-- The player context right after creation: `talloc_zero` zeroes the struct
(booleans false, ints 0, enums at their 0 value, pointers NULL); the PTS
fields are shown at the NOPTS sentinel they are given before playback can
observe them. -/
def mpctx_init : MPContext where
  opts := { pause := false, correct_pts := false, hr_seek := .absolute,
            hr_seek_demuxer_offset := 0, hr_seek_framedrop := false,
            ab_loop0 := MP_NOPTS_VALUE, ab_loop1 := MP_NOPTS_VALUE,
            loop_file := 0, loop_times := 1, cache_pause := false,
            cache_pause_wait := 1, cache_pause_initial := false,
            keep_open := 0, keep_open_pause := false,
            stop_screensaver := false, step_sec := 0 }
  demuxer := none
  tracks := []
  chapters := []
  video_status := .NONE
  audio_status := .NONE
  stop_play := .KEEP_PLAYING
  playback_pts := MP_NOPTS_VALUE
  last_seek_pts := MP_NOPTS_VALUE
  last_vo_pts := MP_NOPTS_VALUE
  video_pts := MP_NOPTS_VALUE
  seek := emptySeekParams
  current_seek := emptySeekParams
  hrseek_active := false
  hrseek_framedrop := false
  hrseek_backstep := false
  hrseek_lastframe := false
  hrseek_pts := MP_NOPTS_VALUE
  paused := false
  paused_for_cache := false
  playback_active := false
  restart_complete := false
  playing := false
  in_playloop := false
  playback_initialized := false
  step_frames := 0
  max_frames := -1
  cache_buffer := 0
  cache_stop_time := 0
  next_cache_update := 0
  ab_loop_clip := true
  audio_allow_second_chance_seek := false
  last_chapter_seek := -2
  last_chapter_pts := MP_NOPTS_VALUE
  start_timestamp := 0
  time_frame := 0
  last_time := 0
  osd_function := 0
  osd_force_update := false
  playing_msg_shown := false
  ao_present := false
  ao_chain_present := false
  video_out_present := false
  vo_chain_present := false
  vo_chain_is_coverart := false
  recorder_present := false

/-- One step of the play-loop transition system.  The named constructors are
the playloop.c operations embedded above, with their external inputs chosen
arbitrarily (the `cache` step assumes the validated `cache_pause_wait`
option is positive, as C float division is modelled by exact division).
`envstep` over-approximates everything else in the program — the remaining
playloop handlers (which touch none of the protected fields) and all code
outside playloop.c: such code never sets `hrseek_active` or
`restart_complete` (it only ever clears them, e.g. the video feed when an
hr-seek target is reached, or the loader before a new file) and never writes
`cache_buffer` out of percentage range. -/
inductive Step : MPContext → MPContext → Prop where
  | queue (s : MPContext) (type : seek_type) (amount : ℚ)
      (exact : seek_precision) (flags : SeekFlags) :
      Step s (queue_seek s type amount exact flags)
  | pause (s : MPContext) (p : Bool) (now_us : Int) :
      Step s (set_pause_state s p now_us).1
  | idlestate (s : MPContext) : Step s (update_core_idle_state s).1
  | reset (s : MPContext) : Step s (reset_playback_state s).1
  | seek (s : MPContext) (k : seek_params) (env : SeekEnv) :
      Step s (mp_seek s k env).st
  | exec (s : MPContext) (env : SeekEnv) :
      Step s (execute_queued_seek s env).1
  | restart (s : MPContext) (env : RestartEnv) :
      Step s (handle_playback_restart s env).1
  | cache (s : MPContext) (env : CacheEnv)
      (h : 0 < s.opts.cache_pause_wait) :
      Step s (handle_pause_on_low_cache s env).1
  | ptime (s : MPContext) (audio_pts : ℚ) :
      Step s (handle_playback_time s audio_pts)
  | loopfile (s : MPContext) : Step s (handle_loop_file s).1
  | keepopen (s : MPContext) (env : KeepOpenEnv) :
      Step s (handle_keep_open s env).1
  | lastframe (s : MPContext) (env : KeepOpenEnv) :
      Step s (seek_to_last_frame s env).1
  | eof (s : MPContext) (vo_has_frame : Bool) :
      Step s (handle_eof s vo_has_frame)
  | sstep (s : MPContext) (now_us : Int) : Step s (handle_sstep s now_us)
  | stepframe (s : MPContext) (dir : Int) (now_us : Int) :
      Step s (add_step_frame s dir now_us)
  | envstep (s s' : MPContext)
      (h1 : s'.hrseek_active = s.hrseek_active ∨ s'.hrseek_active = false)
      (h2 : s'.restart_complete = s.restart_complete ∨
            s'.restart_complete = false)
      (h3 : s'.cache_buffer = s.cache_buffer ∨
            (0 ≤ s'.cache_buffer ∧ s'.cache_buffer ≤ 100)) :
      Step s s'

/-- The reachable states of the play loop: everything the transition system
can produce from the freshly created context. -/
inductive Reachable : MPContext → Prop where
  | init : Reachable mpctx_init
  | step {s s' : MPContext} : Reachable s → Step s s' → Reachable s'

/-- The conjunction of the safety properties proved over `Reachable`:
hr-seek activity excludes a completed restart, and the buffering percentage
stays within range. -/
def Inv (s : MPContext) : Prop :=
  ¬(s.hrseek_active = true ∧ s.restart_complete = true) ∧
  0 ≤ s.cache_buffer ∧ s.cache_buffer ≤ 100

/-- An operation that leaves the three protected fields unchanged. -/
def SameCore (a b : MPContext) : Prop :=
  a.hrseek_active = b.hrseek_active ∧ a.restart_complete = b.restart_complete ∧
  a.cache_buffer = b.cache_buffer

lemma SameCore.refl (a : MPContext) : SameCore a a := ⟨rfl, rfl, rfl⟩

lemma SameCore.trans {a b c : MPContext} (h1 : SameCore a b) (h2 : SameCore b c) :
    SameCore a c :=
  ⟨h1.1.trans h2.1, h1.2.1.trans h2.2.1, h1.2.2.trans h2.2.2⟩

lemma SameCore.inv_of_core {a b : MPContext} (h : SameCore a b) (hb : Inv b) : Inv a := by
  obtain ⟨h1, h2, h3⟩ := h
  exact ⟨by rw [h1, h2]; exact hb.1, by rw [h3]; exact hb.2.1,
         by rw [h3]; exact hb.2.2⟩

/-- What `mp_seek` guarantees about the protected fields: the cache
percentage is untouched and either the run committed (so the restart barrier
was re-armed by `reset_playback_state`) or the hr-seek/restart flags are
untouched. -/
def SeekCore (a b : MPContext) : Prop :=
  a.cache_buffer = b.cache_buffer ∧
  (a.restart_complete = false ∨
   (a.hrseek_active = b.hrseek_active ∧ a.restart_complete = b.restart_complete))

lemma SeekCore.inv_of_seek {a b : MPContext} (h : SeekCore a b) (hb : Inv b) : Inv a := by
  obtain ⟨h1, h2⟩ := h
  refine ⟨?_, by rw [h1]; exact hb.2.1, by rw [h1]; exact hb.2.2⟩
  rcases h2 with h2 | ⟨h3, h4⟩
  · rintro ⟨-, hr⟩; rw [h2] at hr; exact Bool.false_ne_true hr
  · rw [h3, h4]; exact hb.1

lemma SameCore.seekCore {a b c : MPContext} (h1 : SameCore a b)
    (h2 : SeekCore b c) : SeekCore a c := by
  obtain ⟨e1, e2, e3⟩ := h1
  exact ⟨e3.trans h2.1, by rw [e1, e2]; exact h2.2⟩

lemma SeekCore.sameCore {a b c : MPContext} (h1 : SeekCore a b)
    (h2 : SameCore b c) : SeekCore a c := by
  obtain ⟨e2, e1, e3⟩ := h2
  refine ⟨h1.1.trans e3, ?_⟩
  rcases h1.2 with h | ⟨ha, hb⟩
  · exact Or.inl h
  · exact Or.inr ⟨ha.trans e2, hb.trans e1⟩

lemma uci_core (m : MPContext) : SameCore (update_core_idle_state m).1 m := by
  unfold update_core_idle_state
  dsimp only
  split <;> exact ⟨rfl, rfl, rfl⟩

lemma spss_core (m : MPContext) (p : Bool) (t : Int) :
    SameCore (set_pause_state m p t).1 m := by
  unfold set_pause_state
  dsimp only
  split
  · exact (uci_core _).trans ⟨rfl, rfl, rfl⟩
  · refine (uci_core _).trans ?_
    split <;> exact ⟨rfl, rfl, rfl⟩

lemma uips_core (m : MPContext) (t : Int) :
    SameCore (update_internal_pause_state m t).1 m :=
  spss_core m m.opts.pause t

lemma queue_seek_core (m : MPContext) (t : seek_type) (a : ℚ)
    (e : seek_precision) (f : SeekFlags) : SameCore (queue_seek m t a e f) m := by
  unfold queue_seek
  cases t <;> dsimp only <;> repeat' first | split | exact ⟨rfl, rfl, rfl⟩

@[simp] lemma qs_hrseek (m : MPContext) (t : seek_type) (a : ℚ)
    (e : seek_precision) (f : SeekFlags) :
    (queue_seek m t a e f).hrseek_active = m.hrseek_active :=
  (queue_seek_core m t a e f).1

@[simp] lemma qs_restart (m : MPContext) (t : seek_type) (a : ℚ)
    (e : seek_precision) (f : SeekFlags) :
    (queue_seek m t a e f).restart_complete = m.restart_complete :=
  (queue_seek_core m t a e f).2.1

@[simp] lemma qs_cache (m : MPContext) (t : seek_type) (a : ℚ)
    (e : seek_precision) (f : SeekFlags) :
    (queue_seek m t a e f).cache_buffer = m.cache_buffer :=
  (queue_seek_core m t a e f).2.2

@[simp] lemma spss_hrseek (m : MPContext) (p : Bool) (t : Int) :
    (set_pause_state m p t).1.hrseek_active = m.hrseek_active :=
  (spss_core m p t).1

@[simp] lemma spss_restart (m : MPContext) (p : Bool) (t : Int) :
    (set_pause_state m p t).1.restart_complete = m.restart_complete :=
  (spss_core m p t).2.1

@[simp] lemma spss_cache (m : MPContext) (p : Bool) (t : Int) :
    (set_pause_state m p t).1.cache_buffer = m.cache_buffer :=
  (spss_core m p t).2.2

lemma rps_core (m : MPContext) :
    (reset_playback_state m).1.hrseek_active = false ∧
    (reset_playback_state m).1.restart_complete = false ∧
    (reset_playback_state m).1.cache_buffer = m.cache_buffer := by
  unfold reset_playback_state
  have h := uci_core
    {m with hrseek_active := false, hrseek_framedrop := false,
            hrseek_lastframe := false, hrseek_backstep := false,
            current_seek := emptySeekParams,
            playback_pts := MP_NOPTS_VALUE, last_seek_pts := MP_NOPTS_VALUE,
            step_frames := 0, ab_loop_clip := true, restart_complete := false}
  exact ⟨h.1, h.2.1, h.2.2⟩

lemma ptime_core (m : MPContext) (a : ℚ) :
    SameCore (handle_playback_time m a) m := by
  unfold handle_playback_time
  repeat' first | split | exact ⟨rfl, rfl, rfl⟩

lemma eof_core (m : MPContext) (v : Bool) : SameCore (handle_eof m v) m := by
  unfold handle_eof
  dsimp only
  split <;> exact ⟨rfl, rfl, rfl⟩

lemma SameCore.toSeek {a b : MPContext} (h : SameCore a b) : SeekCore a b :=
  ⟨h.2.2, Or.inr ⟨h.1, h.2.1⟩⟩

@[simp] lemma rps_hrseek (m : MPContext) :
    (reset_playback_state m).1.hrseek_active = false := (rps_core m).1

@[simp] lemma rps_restart (m : MPContext) :
    (reset_playback_state m).1.restart_complete = false := (rps_core m).2.1

@[simp] lemma rps_cache (m : MPContext) :
    (reset_playback_state m).1.cache_buffer = m.cache_buffer := (rps_core m).2.2

lemma mp_seek_commit_core (m1 : MPContext) (k : seek_params) (pts : ℚ)
    (hs fd fwd : Bool) (env : SeekEnv) :
    (mp_seek_commit m1 k pts hs fd fwd env).cache_buffer = m1.cache_buffer ∧
    (mp_seek_commit m1 k pts hs fd fwd env).restart_complete = false := by
  unfold mp_seek_commit
  dsimp only
  repeat' split <;> simp

lemma mp_seek_core (m : MPContext) (k : seek_params) (env : SeekEnv) :
    SeekCore (mp_seek m k env).st m := by
  unfold mp_seek
  dsimp only
  repeat' split
  all_goals
    first
      | exact ⟨rfl, Or.inr ⟨rfl, rfl⟩⟩
      | exact ⟨(mp_seek_commit_core _ _ _ _ _ _ _).1,
               Or.inl (mp_seek_commit_core _ _ _ _ _ _ _).2⟩

lemma exec_core (m : MPContext) (env : SeekEnv) :
    SeekCore (execute_queued_seek m env).1 m := by
  unfold execute_queued_seek
  dsimp only
  repeat' split
  all_goals
    first
      | exact ⟨rfl, Or.inr ⟨rfl, rfl⟩⟩
      | exact (mp_seek_core _ _ _).sameCore (SameCore.refl m)

lemma loopfile_core (m : MPContext) : SameCore (handle_loop_file m).1 m := by
  unfold handle_loop_file
  dsimp only
  repeat' split
  all_goals
    first
      | exact ⟨rfl, rfl, rfl⟩

lemma lastframe_core (m : MPContext) (env : KeepOpenEnv) :
    SeekCore (seek_to_last_frame m env).1 m := by
  unfold seek_to_last_frame
  dsimp only
  repeat' split
  all_goals
    first
      | exact ⟨rfl, Or.inr ⟨rfl, rfl⟩⟩
      | exact SameCore.seekCore ⟨rfl, rfl, rfl⟩ (mp_seek_core _ _ _)

lemma keepopen_core (m : MPContext) (env : KeepOpenEnv) :
    SeekCore (handle_keep_open m env).1 m := by
  unfold handle_keep_open
  dsimp only
  repeat' split
  all_goals
    first
      | exact ⟨rfl, Or.inr ⟨rfl, rfl⟩⟩
      | exact ((spss_core _ _ _).trans ⟨rfl, rfl, rfl⟩).toSeek
      | exact SameCore.seekCore ⟨rfl, rfl, rfl⟩
          ((lastframe_core _ _).sameCore ⟨rfl, rfl, rfl⟩)
      | exact (spss_core _ _ _).seekCore (SameCore.seekCore ⟨rfl, rfl, rfl⟩
          ((lastframe_core _ _).sameCore ⟨rfl, rfl, rfl⟩))

lemma sstep_core (m : MPContext) (t : Int) : SameCore (handle_sstep m t) m := by
  unfold handle_sstep
  dsimp only
  repeat' split
  all_goals
    first
      | exact ⟨rfl, rfl, rfl⟩
      | refine ⟨by simp, by simp, by simp⟩

lemma stepframe_core (m : MPContext) (d : Int) (t : Int) :
    SameCore (add_step_frame m d t) m := by
  unfold add_step_frame
  repeat' split
  all_goals
    first
      | exact ⟨rfl, rfl, rfl⟩
      | refine ⟨by simp, by simp, by simp⟩

lemma clamp_bounds (x lo hi : ℚ) (h : lo ≤ hi) :
    lo ≤ MPCLAMPq x lo hi ∧ MPCLAMPq x lo hi ≤ hi := by
  unfold MPCLAMPq
  split_ifs <;> constructor <;> linarith

lemma cache_cb_lo (x : ℚ) : 0 ≤ ⌊(100 : ℚ) * MPCLAMPq x 0 (99 / 100)⌋ := by
  have h := (clamp_bounds x 0 (99 / 100) (by norm_num)).1
  exact Int.le_floor.mpr (by push_cast; linarith)

lemma cache_cb_hi (x : ℚ) : ⌊(100 : ℚ) * MPCLAMPq x 0 (99 / 100)⌋ ≤ 99 := by
  have h := (clamp_bounds x 0 (99 / 100) (by norm_num)).2
  have h2 : (100 : ℚ) * MPCLAMPq x 0 (99 / 100) < ((100 : ℤ) : ℚ) := by
    push_cast; linarith
  have h3 := Int.floor_lt.mpr h2
  omega

lemma hploc_arbitrate_core (m : MPContext) (env : CacheEnv) :
    SameCore (hploc_arbitrate m env).1.1 m := by
  unfold hploc_arbitrate
  dsimp only
  repeat' split
  all_goals
    first
      | exact ⟨rfl, rfl, rfl⟩
      | exact (uips_core _ _).trans ⟨rfl, rfl, rfl⟩

lemma hploc_sched_core (m1 : MPContext) (env : CacheEnv) (busy : Bool) :
    SameCore (hploc_sched m1 env busy).1.1 m1 := by
  unfold hploc_sched
  dsimp only
  repeat' split
  all_goals exact ⟨rfl, rfl, rfl⟩

lemma hploc_commit_state (m2 : MPContext) (cb : Int) :
    (hploc_commit m2 cb).1.cache_buffer = cb ∧
    (hploc_commit m2 cb).1.hrseek_active = m2.hrseek_active ∧
    (hploc_commit m2 cb).1.restart_complete = m2.restart_complete := by
  unfold hploc_commit
  split
  · exact ⟨rfl, rfl, rfl⟩
  · rename_i h
    exact ⟨not_not.mp h, rfl, rfl⟩

lemma hploc_commit_inv {m2 : MPContext} {cb : Int} (hm : Inv m2)
    (hcb : cb = 100 ∨ (0 ≤ cb ∧ cb ≤ 99)) : Inv (hploc_commit m2 cb).1 := by
  obtain ⟨h1, h2, h3⟩ := hploc_commit_state m2 cb
  refine ⟨by rw [h2, h3]; exact hm.1, ?_, ?_⟩
  · rw [h1]
    rcases hcb with rfl | ⟨h, _⟩
    · norm_num
    · exact h
  · rw [h1]
    rcases hcb with rfl | ⟨_, h⟩
    · norm_num
    · omega

lemma cache_inv (m : MPContext) (env : CacheEnv) (hm : Inv m) :
    Inv (handle_pause_on_low_cache m env).1 := by
  unfold handle_pause_on_low_cache
  dsimp only
  split
  · exact hm
  · refine hploc_commit_inv ((hploc_sched_core _ _ _).inv_of_core ?_) ?_
    · split
      · exact (hploc_arbitrate_core _ _).inv_of_core hm
      · exact hm
    · repeat' split
      all_goals
        first
          | exact Or.inr ⟨cache_cb_lo _, cache_cb_hi _⟩
          | exact Or.inl rfl

lemma hpr_initial_cache_inv (m : MPContext) (env : RestartEnv) (hm : Inv m) :
    Inv (hpr_initial_cache m env).1 := by
  unfold hpr_initial_cache
  split
  · exact (uips_core _ _).inv_of_core ⟨hm.1, by norm_num, by norm_num⟩
  · exact hm

lemma hpr_video_promote_core (m1 : MPContext) (env : RestartEnv) :
    SameCore (hpr_video_promote m1 env).1 m1 := by
  unfold hpr_video_promote
  split <;> exact ⟨rfl, rfl, rfl⟩

lemma hpr_finish_inv (m2 : MPContext) (env : RestartEnv) (hm : Inv m2) :
    Inv (hpr_finish m2 env).1 := by
  unfold hpr_finish
  dsimp only
  split
  · refine (SameCore.trans ⟨rfl, rfl, rfl⟩
      ((uci_core _).trans (ptime_core _ _))).inv_of_core ?_
    exact ⟨by simp, hm.2.1, hm.2.2⟩
  · exact hm

lemma restart_inv (m : MPContext) (env : RestartEnv) (hm : Inv m) :
    Inv (handle_playback_restart m env).1 := by
  unfold handle_playback_restart
  dsimp only
  split
  · exact hm
  · have h1 := hpr_initial_cache_inv m env hm
    have h2 := (hpr_video_promote_core (hpr_initial_cache m env).1 env).inv_of_core h1
    split
    · exact (exec_core _ _).inv_of_seek ((ptime_core _ _).inv_of_core h2)
    · exact hpr_finish_inv _ env h2

/-- The master safety property: every reachable play-loop state satisfies
both `hrseek_active`/`restart_complete` exclusion and the `cache_buffer`
range. -/
lemma reachable_inv {s : MPContext} (h : Reachable s) : Inv s := by
  induction h with
  | init => exact ⟨by simp [mpctx_init], by norm_num [mpctx_init], by norm_num [mpctx_init]⟩
  | step _ hstep ih =>
    cases hstep with
    | queue t a e f => exact (queue_seek_core _ t a e f).inv_of_core ih
    | pause p t => exact (spss_core _ p t).inv_of_core ih
    | idlestate => exact (uci_core _).inv_of_core ih
    | reset =>
      refine ⟨?_, ?_, ?_⟩
      · rw [rps_hrseek]; simp
      · rw [rps_cache]; exact ih.2.1
      · rw [rps_cache]; exact ih.2.2
    | seek k env => exact (mp_seek_core _ k env).inv_of_seek ih
    | exec env => exact (exec_core _ env).inv_of_seek ih
    | restart env => exact restart_inv _ env ih
    | cache env h => exact cache_inv _ env ih
    | ptime a => exact (ptime_core _ a).inv_of_core ih
    | loopfile => exact (loopfile_core _).inv_of_core ih
    | keepopen env => exact (keepopen_core _ env).inv_of_seek ih
    | lastframe env => exact (lastframe_core _ env).inv_of_seek ih
    | eof v => exact (eof_core _ v).inv_of_core ih
    | sstep t => exact (sstep_core _ t).inv_of_core ih
    | stepframe d t => exact (stepframe_core _ d t).inv_of_core ih
    | envstep s' h1 h2 h3 =>
      refine ⟨?_, ?_, ?_⟩
      · rintro ⟨e1, e2⟩
        rcases h1 with h1 | h1
        · rcases h2 with h2 | h2
          · exact ih.1 ⟨h1 ▸ e1, h2 ▸ e2⟩
          · rw [h2] at e2; exact Bool.false_ne_true e2
        · rw [h1] at e1; exact Bool.false_ne_true e1
      · rcases h3 with h3 | ⟨h3, _⟩
        · rw [h3]; exact ih.2.1
        · exact h3
      · rcases h3 with h3 | ⟨_, h3⟩
        · rw [h3]; exact ih.2.2
        · exact h3

/-- Recognizer for the PAUSE/UNPAUSE notifications among the effects. -/
def isPauseEvent : Effect → Bool
  | .notify .PAUSE => true
  | .notify .UNPAUSE => true
  | _ => false

/-- Number of PAUSE/UNPAUSE notifications in an effect list. -/
def countPauseEvents (l : List Effect) : Nat := (l.filter isPauseEvent).length

lemma countPauseEvents_append (a b : List Effect) :
    countPauseEvents (a ++ b) = countPauseEvents a + countPauseEvents b := by
  simp [countPauseEvents, List.filter_append]

lemma uci_fields (m : MPContext) :
    (update_core_idle_state m).1.opts = m.opts ∧
    (update_core_idle_state m).1.paused = m.paused ∧
    (update_core_idle_state m).1.paused_for_cache = m.paused_for_cache := by
  unfold update_core_idle_state
  dsimp only
  split <;> exact ⟨rfl, rfl, rfl⟩

lemma uci_pa (m : MPContext) :
    (update_core_idle_state m).1.playback_active = coreActive m := by
  unfold update_core_idle_state
  dsimp only
  split
  · rename_i h; exact h
  · rfl

lemma uci_coreActive (m : MPContext) :
    coreActive (update_core_idle_state m).1 = coreActive m := by
  unfold coreActive update_core_idle_state
  dsimp only
  split <;> rfl

lemma uci_noop (m : MPContext) (h : m.playback_active = coreActive m) :
    update_core_idle_state m = (m, []) := by
  unfold update_core_idle_state
  dsimp only
  rw [if_pos h]

lemma uci_count (m : MPContext) :
    countPauseEvents (update_core_idle_state m).2 = 0 := by
  unfold update_core_idle_state update_screensaver_state
  dsimp only
  repeat' split
  all_goals simp [countPauseEvents, isPauseEvent]

lemma spss_facts (m : MPContext) (p : Bool) (t : Int) :
    (set_pause_state m p t).1.opts.pause = p ∧
    (set_pause_state m p t).1.paused = (p || m.paused_for_cache) ∧
    (set_pause_state m p t).1.paused_for_cache = m.paused_for_cache ∧
    (set_pause_state m p t).1.playback_active =
      coreActive (set_pause_state m p t).1 := by
  unfold set_pause_state
  dsimp only
  split
  · rename_i h
    refine ⟨congrArg MPOpts.pause (uci_fields _).1, ?_,
            (uci_fields _).2.2, by rw [uci_coreActive, uci_pa]⟩
    exact (uci_fields _).2.1.trans h.symm
  · split <;>
      exact ⟨congrArg MPOpts.pause (uci_fields _).1, (uci_fields _).2.1,
             (uci_fields _).2.2, by rw [uci_coreActive, uci_pa]⟩

lemma spss_second (m1 : MPContext) (p : Bool) (t : Int)
    (h1 : m1.opts.pause = p) (h2 : m1.paused = (p || m1.paused_for_cache))
    (h3 : m1.playback_active = coreActive m1) :
    set_pause_state m1 p t = (m1, []) := by
  subst h1
  unfold set_pause_state
  dsimp only
  have e1 : {m1 with opts := {m1.opts with pause := m1.opts.pause}} = m1 := rfl
  rw [e1, if_pos h2.symm, uci_noop m1 h3]
  simp

lemma spss_count (m : MPContext) (p : Bool) (t : Int) :
    countPauseEvents (set_pause_state m p t).2 =
      if m.opts.pause ≠ p ∨ m.paused ≠ (p || m.paused_for_cache) then 1 else 0 := by
  unfold set_pause_state
  dsimp only
  split
  · rename_i h
    rw [countPauseEvents_append, uci_count]
    have hp : m.paused = (p || m.paused_for_cache) := h.symm
    by_cases hc : m.opts.pause = p
    · rw [if_neg, if_neg]
      · simp [countPauseEvents, hc]
      · push_neg
        exact ⟨hc, hp⟩
      · exact fun hx => hx hc
    · rw [if_pos hc, if_pos (Or.inl hc)]
      cases p <;> simp [countPauseEvents, isPauseEvent]
  · rename_i h
    have hp : m.paused ≠ (p || m.paused_for_cache) := fun hx => h hx.symm
    rw [if_pos (Or.inr hp)]
    rw [countPauseEvents_append, countPauseEvents_append, uci_count]
    have h1 : countPauseEvents
        ((if m.ao_present ∧ m.ao_chain_present then
            [if (p || m.paused_for_cache) = true then Effect.aoPause
             else Effect.aoResume] else []) ++
         (if m.video_out_present then
            [Effect.voSetPaused (p || m.paused_for_cache)] else []) ++
         [Effect.wakeup]) = 0 := by
      rw [countPauseEvents_append, countPauseEvents_append]
      repeat' split
      all_goals simp [countPauseEvents, isPauseEvent]
    rw [h1]
    cases p <;> simp [countPauseEvents, isPauseEvent]

lemma hr_decision_iff (m : MPContext) (k : seek_params) :
    mp_seek_hr_decision m k ↔
      (m.opts.correct_pts = true ∧ k.exact ≠ .KEYFRAME ∧
       (m.opts.hr_seek = .always ∨ k.exact.val ≥ seek_precision.EXACT.val ∨
        (m.opts.hr_seek = .absolute ∧ k.type = .ABSOLUTE)) ∧
       mp_seek_pts m k ≠ MP_NOPTS_VALUE) := by
  unfold mp_seek_hr_decision
  cases hm : m.opts.hr_seek <;>
    simp only [hm, HrSeekMode.toInt] <;> norm_num <;> tauto

lemma mp_seek_call_hr (m : MPContext) (k : seek_params) (env : SeekEnv)
    (p : ℚ) (fl : DemuxFlags)
    (h : (mp_seek m k env).demux_call = some (p, fl)) :
    fl.hr = decide (mp_seek_hr_decision m k) := by
  unfold mp_seek at h
  dsimp only at h
  split at h
  · exact absurd h (by simp)
  · split at h
    · exact absurd h (by simp)
    · split at h
      · exact absurd h (by simp)
      · split at h
        all_goals
          simp only [Option.some.injEq, Prod.mk.injEq] at h
          rw [← h.2]

lemma mp_seek_call_hr_pts (m : MPContext) (k : seek_params) (env : SeekEnv)
    (p : ℚ) (fl : DemuxFlags)
    (h : (mp_seek m k env).demux_call = some (p, fl)) (hhr : fl.hr = true) :
    p = mp_seek_pts m k -
        mp_seek_hr_offset m
          (decide (k.exact = .VERY_EXACT) || decide (k.type = .BACKSTEP)) := by
  have hd : decide (mp_seek_hr_decision m k) = true :=
    (mp_seek_call_hr m k env p fl h).symm.trans hhr
  unfold mp_seek at h
  dsimp only at h
  split at h
  · exact absurd h (by simp)
  · split at h
    · exact absurd h (by simp)
    · split at h
      · exact absurd h (by simp)
      · split at h
        all_goals
          simp only [hd] at h
          simp at h
          exact h.1.symm

lemma MPMAXq_le_left (a b : ℚ) : a ≤ MPMAXq a b := by
  unfold MPMAXq
  split <;> linarith

lemma foldl_MPMAXq_ge {α : Type} (g : α → ℚ) (l : List α) (a : ℚ) :
    a ≤ l.foldl (fun acc t => MPMAXq acc (g t)) a := by
  induction l generalizing a with
  | nil => exact le_refl a
  | cons x xs ih => exact le_trans (MPMAXq_le_left a (g x)) (ih (MPMAXq a (g x)))

lemma hr_offset_nonneg (m : MPContext) (v : Bool)
    (h : 0 ≤ m.opts.hr_seek_demuxer_offset) : 0 ≤ mp_seek_hr_offset m v := by
  unfold mp_seek_hr_offset
  dsimp only
  refine le_trans ?_
    (foldl_MPMAXq_ge (fun t : track_state =>
       -(if t.is_external then 0 else t.seek_offset)) m.tracks _)
  cases v
  · simpa using h
  · simp only [Bool.true_eq_false]
    exact le_trans h (by simpa using MPMAXq_le_left m.opts.hr_seek_demuxer_offset (1 / 2))

lemma hploc_sched_pfc (m1 : MPContext) (env : CacheEnv) (busy : Bool) :
    (hploc_sched m1 env busy).1.1.paused_for_cache = m1.paused_for_cache := by
  unfold hploc_sched
  dsimp only
  repeat' split
  all_goals rfl

lemma hploc_commit_pfc (m2 : MPContext) (cb : Int) :
    (hploc_commit m2 cb).1.paused_for_cache = m2.paused_for_cache := by
  unfold hploc_commit
  split <;> rfl

lemma hploc_cache_value (m : MPContext) (env : CacheEnv) (dm : demuxer_state)
    (hd : m.demuxer = some dm) :
    (handle_pause_on_low_cache m env).1.cache_buffer =
      (if m.restart_complete = true ∧
          (decide (env.c_size > 0) || dm.is_network) = true ∧
          (handle_pause_on_low_cache m env).1.paused_for_cache = true then
         ⌊(100 : ℚ) * MPCLAMPq (env.s_ts_duration / m.opts.cache_pause_wait)
             0 (99 / 100)⌋
       else 100) := by
  unfold handle_pause_on_low_cache
  dsimp only
  split
  · rename_i h
    rw [h] at hd
    cases hd
  · rename_i dm' h
    rw [h] at hd
    cases hd
    rw [(hploc_commit_state _ _).1, hploc_commit_pfc, hploc_sched_pfc]

lemma hploc_no_demuxer (m : MPContext) (env : CacheEnv)
    (hd : m.demuxer = none) :
    handle_pause_on_low_cache m env = (m, []) := by
  unfold handle_pause_on_low_cache
  dsimp only
  split
  · rfl
  · rename_i dm h
    rw [h] at hd
    cases hd

lemma precMAX_self (e : seek_precision) : precMAX e e = e := by
  unfold precMAX
  split <;> rfl

lemma queue_seek_seek (m : MPContext) (t : seek_type) (a : ℚ)
    (e : seek_precision) (f : SeekFlags) :
    (queue_seek m t a e f).seek = queue_seek_merge m.seek t a e f := by
  unfold queue_seek
  dsimp only
  split <;> rfl

/-- C1: starting from an empty pending seek (type NONE), the two calls
`queue_seek(RELATIVE, a, e, f1); queue_seek(RELATIVE, b, e, f2)` leave the
same pending seek record as the single call
`queue_seek(RELATIVE, a+b, e, f1|f2)`, namely type RELATIVE, amount `a+b`,
precision `e` and flags `f1|f2`. -/
theorem c1_seek_coalescing (m : MPContext) (a b : ℚ) (e : seek_precision)
    (f1 f2 : SeekFlags) (h : m.seek = emptySeekParams) :
    (queue_seek (queue_seek m .RELATIVE a e f1) .RELATIVE b e f2).seek =
      (queue_seek m .RELATIVE (a + b) e (SeekFlags.union f1 f2)).seek ∧
    (queue_seek (queue_seek m .RELATIVE a e f1) .RELATIVE b e f2).seek =
      ⟨.RELATIVE, a + b, e, SeekFlags.union f1 f2⟩ := by
  rw [queue_seek_seek, queue_seek_seek, queue_seek_seek, h]
  obtain ⟨d1, n1⟩ := f1
  obtain ⟨d2, n2⟩ := f2
  simp [queue_seek_merge, emptySeekParams, noSeekFlags, SeekFlags.union,
        precMAX_self, add_assoc]

theorem c1_seek_coalescing_witness :
    ((queue_seek (queue_seek mpctx_init .RELATIVE 5 .EXACT ⟨true, false⟩)
        .RELATIVE 3 .EXACT ⟨false, true⟩).seek =
      (queue_seek mpctx_init .RELATIVE (5 + 3) .EXACT
        (SeekFlags.union ⟨true, false⟩ ⟨false, true⟩)).seek ∧
     (queue_seek (queue_seek mpctx_init .RELATIVE 5 .EXACT ⟨true, false⟩)
        .RELATIVE 3 .EXACT ⟨false, true⟩).seek =
      ⟨.RELATIVE, 5 + 3, .EXACT, SeekFlags.union ⟨true, false⟩ ⟨false, true⟩⟩) :=
  c1_seek_coalescing mpctx_init 5 3 .EXACT ⟨true, false⟩ ⟨false, true⟩ rfl

/-- C9 counterexample: queueing a RELATIVE seek onto a pending FACTOR seek
does change the pending record — the flags are OR-merged before the FACTOR
check returns (`seek->flags |= flags` precedes `if (seek->type ==
MPSEEK_FACTOR) return`), so a pending FACTOR with empty flags gains the
NOFLUSH bit. -/
def c9cex : MPContext :=
  {mpctx_init with seek := ⟨.FACTOR, 1 / 2, .DEFAULT, ⟨false, false⟩⟩}

theorem c9_counterexample :
    c9cex.seek.type = .FACTOR ∧
    (queue_seek c9cex .RELATIVE 5 .EXACT ⟨false, true⟩).seek.flags ≠
      c9cex.seek.flags := by
  decide

/-- C9 (amended): with a pending FACTOR seek, `queue_seek(RELATIVE, a, e, f)`
leaves the pending type, amount and precision unchanged, but OR-merges `f`
into the pending flags. -/
theorem c9_relative_into_factor (m : MPContext) (a : ℚ) (e : seek_precision)
    (f : SeekFlags) (h : m.seek.type = .FACTOR) :
    (queue_seek m .RELATIVE a e f).seek.type = .FACTOR ∧
    (queue_seek m .RELATIVE a e f).seek.amount = m.seek.amount ∧
    (queue_seek m .RELATIVE a e f).seek.exact = m.seek.exact ∧
    (queue_seek m .RELATIVE a e f).seek.flags = SeekFlags.union m.seek.flags f := by
  simp only [queue_seek_seek]
  simp [queue_seek_merge, h]

theorem c9_relative_into_factor_witness :
    (c9cex.seek.type = .FACTOR) ∧
    ((queue_seek c9cex .RELATIVE 5 .EXACT ⟨false, true⟩).seek.type = .FACTOR ∧
     (queue_seek c9cex .RELATIVE 5 .EXACT ⟨false, true⟩).seek.amount =
       c9cex.seek.amount ∧
     (queue_seek c9cex .RELATIVE 5 .EXACT ⟨false, true⟩).seek.exact =
       c9cex.seek.exact ∧
     (queue_seek c9cex .RELATIVE 5 .EXACT ⟨false, true⟩).seek.flags =
       SeekFlags.union c9cex.seek.flags ⟨false, true⟩) :=
  ⟨by decide, c9_relative_into_factor c9cex 5 .EXACT ⟨false, true⟩ (by decide)⟩

/-- C10: `chapter_start_time` returns 0 at index −1, the stored chapter
start PTS for an index in `[0, num_chapters)`, and NOPTS for every other
index; `chapter_name` returns no name for every index outside
`[0, num_chapters)`. -/
theorem c10_chapter_accessors (m : MPContext) (c : Int) :
    (c = -1 → chapter_start_time m c = 0) ∧
    (0 ≤ c → c < (m.chapters.length : Int) →
       chapter_start_time m c = (m.chapters.getD c.toNat ⟨0, none⟩).pts) ∧
    (c ≠ -1 → (c < 0 ∨ (m.chapters.length : Int) ≤ c) →
       chapter_start_time m c = MP_NOPTS_VALUE) ∧
    ((c < 0 ∨ (m.chapters.length : Int) ≤ c) → chapter_name m c = none) := by
  unfold chapter_start_time chapter_name
  refine ⟨fun h1 => by rw [if_pos h1], fun h1 h2 => ?_, fun h1 h2 => ?_,
          fun h1 => ?_⟩
  · rw [if_neg (by omega), if_pos ⟨h1, h2⟩]
  · rw [if_neg h1, if_neg (by omega)]
  · rw [if_pos (by omega)]

def c10m : MPContext :=
  {mpctx_init with chapters := [⟨10, some "one"⟩, ⟨20, none⟩]}

theorem c10_chapter_accessors_witness :
    chapter_start_time c10m (-1) = 0 ∧
    chapter_start_time c10m 1 = (c10m.chapters.getD (1 : Int).toNat ⟨0, none⟩).pts ∧
    chapter_start_time c10m 5 = MP_NOPTS_VALUE ∧
    chapter_name c10m 5 = none :=
  ⟨(c10_chapter_accessors c10m (-1)).1 rfl,
   (c10_chapter_accessors c10m 1).2.1 (by decide) (by decide),
   (c10_chapter_accessors c10m 5).2.2.1 (by decide) (Or.inr (by decide)),
   (c10_chapter_accessors c10m 5).2.2.2 (Or.inr (by decide))⟩

/-- C8 counterexample: without a demuxer, `get_current_time` returns NOPTS
even when `playback_pts` is known — the claim's unconditional
"returns playback_pts when it is not NOPTS" fails. -/
def c8cex : MPContext := {mpctx_init with playback_pts := 5}

theorem c8_counterexample :
    c8cex.playback_pts ≠ MP_NOPTS_VALUE ∧
    get_current_time c8cex ≠ c8cex.playback_pts := by
  decide

/-- C8 (amended): when a demuxer is present, `get_current_time` returns
`playback_pts` when it is not NOPTS, otherwise `last_seek_pts` when it is
not NOPTS, otherwise NOPTS; without a demuxer it returns NOPTS
unconditionally. -/
theorem c8_current_time (m : MPContext) :
    (m.demuxer ≠ none →
       get_current_time m =
         (if m.playback_pts ≠ MP_NOPTS_VALUE then m.playback_pts
          else if m.last_seek_pts ≠ MP_NOPTS_VALUE then m.last_seek_pts
          else MP_NOPTS_VALUE)) ∧
    (m.demuxer = none → get_current_time m = MP_NOPTS_VALUE) := by
  unfold get_current_time
  cases hd : m.demuxer with
  | none => exact ⟨fun h => absurd rfl h, fun _ => rfl⟩
  | some d => exact ⟨fun _ => rfl, fun h => Option.noConfusion h⟩

def c8m : MPContext :=
  {mpctx_init with demuxer := some ⟨100, true, false, false⟩, playback_pts := 7}

theorem c8_current_time_witness :
    get_current_time c8m =
      (if c8m.playback_pts ≠ MP_NOPTS_VALUE then c8m.playback_pts
       else if c8m.last_seek_pts ≠ MP_NOPTS_VALUE then c8m.last_seek_pts
       else MP_NOPTS_VALUE) :=
  (c8_current_time c8m).1 (by decide)

/-- C5: at AT_END_OF_FILE with at least one A-B loop endpoint configured,
`handle_loop_file` restores KEEP_PLAYING and queues exactly one ABSOLUTE
seek to the A endpoint (0 when the A endpoint is unset) with precision
EXACT and the NOFLUSH flag. -/
theorem c5_ab_loop_wrap (m : MPContext)
    (h1 : m.stop_play = .AT_END_OF_FILE)
    (h2 : m.opts.ab_loop0 ≠ MP_NOPTS_VALUE ∨ m.opts.ab_loop1 ≠ MP_NOPTS_VALUE) :
    (handle_loop_file m).1.stop_play = .KEEP_PLAYING ∧
    (handle_loop_file m).2 =
      [⟨.ABSOLUTE, if m.opts.ab_loop0 = MP_NOPTS_VALUE then 0 else m.opts.ab_loop0,
        .EXACT, ⟨false, true⟩⟩] ∧
    (handle_loop_file m).1.seek =
      ⟨.ABSOLUTE, if m.opts.ab_loop0 = MP_NOPTS_VALUE then 0 else m.opts.ab_loop0,
       .EXACT, ⟨false, true⟩⟩ := by
  unfold handle_loop_file
  rw [if_pos ⟨h1, h2⟩]
  unfold get_ab_loop_start_time queue_seek
  dsimp only
  simp [queue_seek_merge]

def c5m : MPContext :=
  {mpctx_init with
    stop_play := .AT_END_OF_FILE
    opts := {mpctx_init.opts with ab_loop0 := 30, ab_loop1 := 60}}

theorem c5_ab_loop_wrap_witness :
    (handle_loop_file c5m).1.stop_play = .KEEP_PLAYING ∧
    (handle_loop_file c5m).2 =
      [⟨.ABSOLUTE,
        if c5m.opts.ab_loop0 = MP_NOPTS_VALUE then 0 else c5m.opts.ab_loop0,
        .EXACT, ⟨false, true⟩⟩] ∧
    (handle_loop_file c5m).1.seek =
      ⟨.ABSOLUTE,
       if c5m.opts.ab_loop0 = MP_NOPTS_VALUE then 0 else c5m.opts.ab_loop0,
       .EXACT, ⟨false, true⟩⟩ :=
  c5_ab_loop_wrap c5m rfl (Or.inl (by decide))

/-- C2: whenever `mp_seek` issues a demuxer seek, its HR flag — the
high-resolution seek path — is set iff the correct_pts option is enabled,
the seek's precision is not KEYFRAME, at least one of (the hr_seek option is
"always", the precision is EXACT or stronger, the hr_seek option is
"absolute" and the seek type is ABSOLUTE) holds, and the computed seek_pts
is not NOPTS. -/
theorem c2_hr_seek_decision (m : MPContext) (k : seek_params) (env : SeekEnv)
    (p : ℚ) (fl : DemuxFlags)
    (h : (mp_seek m k env).demux_call = some (p, fl)) :
    fl.hr = true ↔
      (m.opts.correct_pts = true ∧ k.exact ≠ .KEYFRAME ∧
       (m.opts.hr_seek = .always ∨ k.exact.val ≥ seek_precision.EXACT.val ∨
        (m.opts.hr_seek = .absolute ∧ k.type = .ABSOLUTE)) ∧
       mp_seek_pts m k ≠ MP_NOPTS_VALUE) := by
  rw [mp_seek_call_hr m k env p fl h, decide_eq_true_eq]
  exact hr_decision_iff m k

def c2m : MPContext :=
  {mpctx_init with
    demuxer := some ⟨100, true, false, false⟩
    opts := {mpctx_init.opts with correct_pts := true, hr_seek := .always}}

def c2k : seek_params := ⟨.ABSOLUTE, 10, .EXACT, ⟨false, false⟩⟩

lemma c2_call_eval : (mp_seek c2m c2k ⟨0, true⟩).demux_call =
    some (10, ⟨false, true, false, false⟩) := by
  unfold mp_seek
  norm_num +decide [c2m, c2k, mpctx_init, mp_seek_pts, mp_seek_current_time,
    get_current_time, get_time_length, mp_seek_hr_decision, HrSeekMode.toInt,
    seek_precision.val, mp_seek_hr_offset, MPMAXq, MP_NOPTS_VALUE]

theorem c2_hr_seek_decision_witness :
    (mp_seek c2m c2k ⟨0, true⟩).demux_call =
      some (10, ⟨false, true, false, false⟩) ∧
    (((⟨false, true, false, false⟩ : DemuxFlags).hr = true) ↔
      (c2m.opts.correct_pts = true ∧ c2k.exact ≠ .KEYFRAME ∧
       (c2m.opts.hr_seek = .always ∨
        c2k.exact.val ≥ seek_precision.EXACT.val ∨
        (c2m.opts.hr_seek = .absolute ∧ c2k.type = .ABSOLUTE)) ∧
       mp_seek_pts c2m c2k ≠ MP_NOPTS_VALUE)) :=
  ⟨c2_call_eval,
   c2_hr_seek_decision c2m c2k ⟨0, true⟩ 10 ⟨false, true, false, false⟩
     c2_call_eval⟩

/-- C4 counterexample: the `--hr-seek-demuxer-offset` option is a plain
float that may be negative; with offset −1 an hr-seek passes the demuxer a
PTS strictly above the computed seek_pts (11 > 10), so the claim fails as
stated. -/
def c4cex : MPContext :=
  {mpctx_init with
    demuxer := some ⟨100, true, false, false⟩
    opts := {mpctx_init.opts with correct_pts := true, hr_seek := .always,
                                  hr_seek_demuxer_offset := -1}}

def c4k : seek_params := ⟨.ABSOLUTE, 10, .EXACT, ⟨false, false⟩⟩

theorem c4_counterexample :
    (mp_seek c4cex c4k ⟨0, true⟩).demux_call =
      some (11, ⟨false, true, false, false⟩) ∧
    mp_seek_pts c4cex c4k = 10 ∧ ¬((11 : ℚ) ≤ 10) := by
  refine ⟨?_, ?_, by norm_num⟩
  · unfold mp_seek
    norm_num +decide [c4cex, c4k, mpctx_init, mp_seek_pts, mp_seek_current_time,
      get_current_time, get_time_length, mp_seek_hr_decision, HrSeekMode.toInt,
      seek_precision.val, mp_seek_hr_offset, MPMAXq, MP_NOPTS_VALUE]
  · norm_num +decide [c4cex, c4k, mpctx_init, mp_seek_pts, mp_seek_current_time,
      get_current_time, get_time_length, MP_NOPTS_VALUE]

/-- C4 (amended): whenever `mp_seek` chooses an hr-seek and the
`hr_seek_demuxer_offset` option is nonnegative, the PTS passed to the
demuxer seek is at most the computed target seek_pts. -/
theorem c4_hr_offset_monotone (m : MPContext) (k : seek_params) (env : SeekEnv)
    (p : ℚ) (fl : DemuxFlags)
    (hoff : 0 ≤ m.opts.hr_seek_demuxer_offset)
    (h : (mp_seek m k env).demux_call = some (p, fl)) (hhr : fl.hr = true) :
    p ≤ mp_seek_pts m k := by
  rw [mp_seek_call_hr_pts m k env p fl h hhr]
  have h2 := hr_offset_nonneg m
    (decide (k.exact = .VERY_EXACT) || decide (k.type = .BACKSTEP)) hoff
  linarith

def c4m : MPContext :=
  {mpctx_init with
    demuxer := some ⟨100, true, false, false⟩
    opts := {mpctx_init.opts with correct_pts := true, hr_seek := .always,
                                  hr_seek_demuxer_offset := 1 / 2}}

lemma c4m_call_eval : (mp_seek c4m c4k ⟨0, true⟩).demux_call =
    some (19 / 2, ⟨false, true, false, false⟩) := by
  unfold mp_seek
  norm_num +decide [c4m, c4k, mpctx_init, mp_seek_pts, mp_seek_current_time,
    get_current_time, get_time_length, mp_seek_hr_decision, HrSeekMode.toInt,
    seek_precision.val, mp_seek_hr_offset, MPMAXq, MP_NOPTS_VALUE]

theorem c4_hr_offset_monotone_witness :
    (19 / 2 : ℚ) ≤ mp_seek_pts c4m c4k :=
  c4_hr_offset_monotone c4m c4k ⟨0, true⟩ (19 / 2) ⟨false, true, false, false⟩
    (by norm_num [c4m, mpctx_init]) c4m_call_eval rfl

/-- C3: in every reachable state of the play loop, `hrseek_active` and
`restart_complete` are never both true — `mp_seek` sets `hrseek_active` only
after `reset_playback_state` has cleared `restart_complete`, and
`handle_playback_restart` clears `hrseek_active` in the same step that sets
`restart_complete`. -/
theorem c3_hrseek_restart_exclusion (s : MPContext) (h : Reachable s) :
    ¬(s.hrseek_active = true ∧ s.restart_complete = true) :=
  (reachable_inv h).1

theorem c3_hrseek_restart_exclusion_witness :
    ¬(mpctx_init.hrseek_active = true ∧ mpctx_init.restart_complete = true) :=
  c3_hrseek_restart_exclusion mpctx_init Reachable.init

/-- C7 counterexample: while paused for cache with `ts_duration = 1` and
`cache_pause_wait = 3`, the stored value is the int truncation 33, not the
claim's exact `100 × clamp(1/3, 0, 0.99) = 100/3`. -/
def c7cex : MPContext :=
  {mpctx_init with
    demuxer := some ⟨100, true, false, true⟩
    restart_complete := true
    paused := true
    paused_for_cache := true
    cache_buffer := 50
    opts := {mpctx_init.opts with cache_pause := true, cache_pause_wait := 3}}

def c7env : CacheEnv :=
  { now := 0, now_us := 0, c_idle := true, c_size := 0, s_idle := true,
    s_underrun := true, s_eof := false, s_ts_duration := 1 }

lemma c7_eval :
    (handle_pause_on_low_cache c7cex c7env).1.cache_buffer = 33 ∧
    (handle_pause_on_low_cache c7cex c7env).1.paused_for_cache = true := by
  unfold handle_pause_on_low_cache hploc_arbitrate hploc_sched hploc_commit
  norm_num +decide [c7cex, c7env, mpctx_init, MPCLAMPq, MP_NOPTS_VALUE]

/-- C7 counterexample, no-demuxer part: with no demuxer the handler returns
before touching `cache_buffer`, so a stored 50 stays 50 rather than being
set to 100. -/
def c7cex2 : MPContext := {mpctx_init with cache_buffer := 50}

theorem c7_counterexample :
    ((handle_pause_on_low_cache c7cex c7env).1.cache_buffer = 33 ∧
     ((33 : ℚ) ≠
       (100 : ℚ) * MPCLAMPq (c7env.s_ts_duration / c7cex.opts.cache_pause_wait)
         0 (99 / 100))) ∧
    (c7cex2.demuxer = none ∧
     (handle_pause_on_low_cache c7cex2 c7env).1.cache_buffer = 50 ∧
     (50 : Int) ≠ 100) := by
  refine ⟨⟨c7_eval.1, ?_⟩, rfl, ?_, by decide⟩
  · norm_num [c7cex, c7env, mpctx_init, MPCLAMPq]
  · rw [hploc_no_demuxer c7cex2 c7env rfl]
    rfl

/-- C7 (amended): `cache_buffer` stays in [0, 100] in every reachable state;
with a demuxer present, while the player is paused for cache after
`restart_complete` with a cache-capable source, `handle_pause_on_low_cache`
sets `cache_buffer` to
`⌊100 × clamp(ts_duration / cache_pause_wait, 0, 0.99)⌋` (hence at most
99), and otherwise to 100; with no demuxer it returns immediately, leaving
`cache_buffer` (and the whole state) unchanged. -/
theorem c7_cache_buffer :
    (∀ s : MPContext, Reachable s →
       0 ≤ s.cache_buffer ∧ s.cache_buffer ≤ 100) ∧
    (∀ (m : MPContext) (env : CacheEnv) (dm : demuxer_state),
       m.demuxer = some dm →
       ((m.restart_complete = true ∧
         (decide (env.c_size > 0) || dm.is_network) = true ∧
         (handle_pause_on_low_cache m env).1.paused_for_cache = true) →
          (handle_pause_on_low_cache m env).1.cache_buffer =
            ⌊(100 : ℚ) * MPCLAMPq (env.s_ts_duration / m.opts.cache_pause_wait)
                0 (99 / 100)⌋ ∧
          (handle_pause_on_low_cache m env).1.cache_buffer ≤ 99) ∧
       (¬(m.restart_complete = true ∧
          (decide (env.c_size > 0) || dm.is_network) = true ∧
          (handle_pause_on_low_cache m env).1.paused_for_cache = true) →
          (handle_pause_on_low_cache m env).1.cache_buffer = 100)) ∧
    (∀ (m : MPContext) (env : CacheEnv), m.demuxer = none →
       handle_pause_on_low_cache m env = (m, [])) := by
  refine ⟨?_, ?_, ?_⟩
  · exact fun s h => ⟨(reachable_inv h).2.1, (reachable_inv h).2.2⟩
  · intro m env dm hd
    constructor
    · intro hc
      rw [hploc_cache_value m env dm hd, if_pos hc]
      exact ⟨rfl, cache_cb_hi _⟩
    · intro hc
      rw [hploc_cache_value m env dm hd, if_neg hc]
  · exact hploc_no_demuxer

theorem c7_cache_buffer_witness :
    (0 ≤ mpctx_init.cache_buffer ∧ mpctx_init.cache_buffer ≤ 100) ∧
    ((handle_pause_on_low_cache c7cex c7env).1.cache_buffer =
       ⌊(100 : ℚ) *
          MPCLAMPq (c7env.s_ts_duration / c7cex.opts.cache_pause_wait)
            0 (99 / 100)⌋ ∧
     (handle_pause_on_low_cache c7cex c7env).1.cache_buffer ≤ 99) ∧
    handle_pause_on_low_cache mpctx_init c7env = (mpctx_init, []) :=
  ⟨c7_cache_buffer.1 mpctx_init Reachable.init,
   (c7_cache_buffer.2.1 c7cex c7env ⟨100, true, false, true⟩ rfl).1
     ⟨rfl, by decide, c7_eval.2⟩,
   c7_cache_buffer.2.2 mpctx_init c7env rfl⟩

/-- C6 counterexample: when the effective pause state is out of sync with
`opts.pause ∨ paused_for_cache` — exactly the state `set_pause_state` is
called in after `paused_for_cache` flips — a single `set_pause_state(p)`
call emits a PAUSE event even though `opts.pause` did not change, so "only
when opts.pause actually changes" fails. -/
def c6cex : MPContext := {mpctx_init with paused_for_cache := true}

theorem c6_counterexample :
    c6cex.opts.pause = false ∧
    countPauseEvents (set_pause_state c6cex false 0).2 = 1 := by
  decide

/-- C6 (amended): for every player state and boolean p, calling
`set_pause_state(p)` twice in a row emits at most one PAUSE/UNPAUSE event in
total, and only when `opts.pause` or the effective pause state changes in
the first call; the second call emits nothing, performs no output calls,
and leaves the whole player state unchanged. -/
theorem c6_pause_idempotent (m : MPContext) (p : Bool) (t1 t2 : Int) :
    countPauseEvents ((set_pause_state m p t1).2 ++
        (set_pause_state (set_pause_state m p t1).1 p t2).2) ≤ 1 ∧
    (countPauseEvents ((set_pause_state m p t1).2 ++
        (set_pause_state (set_pause_state m p t1).1 p t2).2) = 1 →
       m.opts.pause ≠ p ∨ m.paused ≠ (p || m.paused_for_cache)) ∧
    set_pause_state (set_pause_state m p t1).1 p t2 =
      ((set_pause_state m p t1).1, []) := by
  obtain ⟨f1, f2, f3, f4⟩ := spss_facts m p t1
  have hsecond : set_pause_state (set_pause_state m p t1).1 p t2 =
      ((set_pause_state m p t1).1, []) :=
    spss_second _ p t2 f1 (by rw [f3]; exact f2) f4
  refine ⟨?_, ?_, hsecond⟩
  · rw [countPauseEvents_append, hsecond, spss_count]
    split_ifs <;> simp [countPauseEvents]
  · intro hc
    rw [countPauseEvents_append, hsecond, spss_count] at hc
    by_cases hcase : m.opts.pause ≠ p ∨ m.paused ≠ (p || m.paused_for_cache)
    · exact hcase
    · rw [if_neg hcase] at hc
      simp [countPauseEvents] at hc

end Playloop
